import Mathlib

set_option maxRecDepth 8000

/-!
Shallow embedding of the schedule-search engine of `src/app.py`
(class `ScheduleOptimizer`: `__init__`, `generate_optimized_schedule`,
`suggest_improvements`), together with proofs about it.

Modelling conventions:
* The raw `config_data` dict is a record of `Option` fields; `d.get(k, v)`
  becomes `Option.getD`.
* Python ints are `Int`; float arithmetic in the metrics is modelled exactly
  over `ℚ`, and `round(x, 1)` is round-half-to-even at one decimal (`pyRound1`).
* The random source is an oracle `Nat → Draw` of natural numbers; each
  primitive maps its oracle value onto the support of the corresponding Python
  primitive (`random.choice l` returns `l[i % len(l)]`, `random.randint(1, n)`
  returns `1 + i % n` when `n ≥ 1` and raises `ValueError` when `n < 1`,
  `random.choice []` raises `IndexError`).  Raised exceptions are modelled with
  `Except String`.
* Dicts and sets keep insertion order: the grid is a flat insertion-ordered
  list of entries keyed by `(day, slot, class_id)` with dict-update semantics
  (`gridInsert`), the per-cell room/batch occupancy sets are insertion-ordered
  lists without duplicates (`setAdd`), and the `faculty_load` dict-of-dicts is
  an association list of association lists.
-/

namespace App

/-- The raw configuration record (`config_data`).  A field is `none` when the
corresponding key is absent, so that the `.get(key, default)` reads in
`generate_optimized_schedule` can be modelled faithfully; numeric fields are
integers, as in Python, so negative values are representable. -/
structure ConfigData where
  subject_list : Option (List String) := none
  classrooms : Option Int := none
  batches : Option Int := none
  faculty_count : Option Int := none
  max_load : Option Int := none
  classes_per_week : Option Int := none
  max_classes_day : Option Int := none
  days_week : Option Int := none
deriving DecidableEq, Repr

/-- Default subject list (app.py:164). -/
def default_subjects : List String := ["Math", "Physics", "Chemistry", "CS", "English"]

/-- `subjects` read in `generate_optimized_schedule` (app.py:164). -/
def eff_subjects (c : ConfigData) : List String := c.subject_list.getD default_subjects

/-- The nested classrooms read of `generate_optimized_schedule`, default 10 (app.py:165). -/
def eff_classrooms (c : ConfigData) : Int := c.classrooms.getD 10

/-- The nested batches read, default 15 (app.py:166). -/
def eff_batches (c : ConfigData) : Int := c.batches.getD 15

/-- The nested faculty count read, default 30 (app.py:167). -/
def eff_faculty_count (c : ConfigData) : Int := c.faculty_count.getD 30

/-- The nested max daily load read, default 6 (app.py:231). -/
def eff_max_load (c : ConfigData) : Int := c.max_load.getD 6

/-- The nested classes-per-week read, default 4 (app.py:169). -/
def eff_classes_per_week (c : ConfigData) : Int := c.classes_per_week.getD 4

/-- `self.time_slots` (app.py:156). -/
def time_slots : List String :=
  ["9:00-10:00", "10:00-11:00", "11:15-12:15", "12:15-1:15", "2:15-3:15", "3:15-4:15"]

/-- `self.days` before the `days_week == 5` truncation (app.py:157). -/
def base_days : List String :=
  ["Monday", "Tuesday", "Wednesday", "Thursday", "Friday", "Saturday"]

/-- `self.days` as set in `ScheduleOptimizer.__init__` (app.py:157-160):
truncated to five days exactly when `days_week` equals 5. -/
def days (c : ConfigData) : List String :=
  if c.days_week = some 5 then base_days.take 5 else base_days

/-- The surname list of the faculty name pool (app.py:172-175). -/
def faculty_surnames : List String :=
  ["Smith", "Johnson", "Williams", "Brown", "Davis", "Wilson",
   "Miller", "Moore", "Taylor", "Anderson", "Thomas", "Jackson",
   "White", "Harris", "Martin", "Thompson", "Garcia", "Martinez"]

/-- The full faculty name pool, each surname prefixed with the honorific (app.py:172). -/
def faculty_names : List String := faculty_surnames.map (fun n => "Dr. " ++ n)

/-- Python slice `l[:c]` for an integer `c` (negative `c` counts from the end). -/
def pySliceTo (l : List String) (c : Int) : List String :=
  if 0 ≤ c then l.take c.toNat else l.take ((l.length : Int) + c).toNat

/-- The truncated faculty pool `faculty_names[:faculty_count]` (app.py:192, 214). -/
def trunc_pool (c : ConfigData) : List String := pySliceTo faculty_names (eff_faculty_count c)

/-- The room name rendered from the drawn room number (app.py:211). -/
def roomName (n : Nat) : String := "Room " ++ toString n

/-- The batch name rendered from the drawn batch number (app.py:213). -/
def batchName (n : Nat) : String := "Batch " ++ toString n

/-- The composite grid key: subject, batch name and room name joined by underscores (app.py:253). -/
def classIdOf (subject batch room : String) : String := subject ++ "_" ++ batch ++ "_" ++ room

/-- One placed class: the dict stored at `schedule[day][slot][class_id]` (app.py:254-259). -/
structure Session where
  subject : String
  room : String
  batch : String
  faculty : String
deriving DecidableEq, Repr

/-- One binding of the nested `schedule` dict, flattened:
`schedule[day][slot][classId] = session`. -/
structure GridEntry where
  day : String
  slot : String
  classId : String
  session : Session
deriving DecidableEq, Repr

/-- One rejected-attempt record appended to `conflicts` (app.py:271-276). -/
structure Conflict where
  subject : String
  day : String
  slot : String
  reasons : List String
deriving DecidableEq, Repr

/-- The mutable state of one candidate-generation run: the grid plus the
tracking structures `room_usage`, `batch_schedule`, `faculty_load`, the
`conflicts` list and the `total_classes_scheduled` counter (app.py:177-196). -/
structure RunState where
  schedule : List GridEntry
  room_usage : List (String × String × String)
  batch_schedule : List (String × String × String)
  faculty_load : List (String × List (String × Nat))
  conflicts : List Conflict
  total_classes_scheduled : Nat
deriving DecidableEq, Repr

/-- Dict read `faculty_load[f][d]` (every read in the engine hits a key that
`initState` created, so the out-of-dictionary default 0 is never observable). -/
def flGet (fl : List (String × List (String × Nat))) (f d : String) : Nat :=
  match fl.lookup f with
  | some dl => (dl.lookup d).getD 0
  | none => 0

/-- Dict update `faculty_load[f][d] += 1` (app.py:264). -/
def flBump (fl : List (String × List (String × Nat))) (f d : String) :
    List (String × List (String × Nat)) :=
  fl.map (fun p =>
    if p.1 = f then (p.1, p.2.map (fun q => if q.1 = d then (q.1, q.2 + 1) else q)) else p)

/-- Set insertion (`s.add x`) on an insertion-ordered duplicate-free list. -/
def setAdd (s : List (String × String × String)) (a : String × String × String) :
    List (String × String × String) :=
  if a ∈ s then s else s ++ [a]

/-- Dict assignment `schedule[day][slot][class_id] = session`: replaces the
value if the key is already bound in that cell, otherwise appends. -/
def gridInsert (g : List GridEntry) (e : GridEntry) : List GridEntry :=
  if g.any (fun x => decide (x.day = e.day ∧ x.slot = e.slot ∧ x.classId = e.classId)) then
    g.map (fun x => if x.day = e.day ∧ x.slot = e.slot ∧ x.classId = e.classId then e else x)
  else g ++ [e]

/-- The empty tracking structures built at app.py:177-196: empty grid, empty
occupancy sets, and a `faculty_load` dict with every pool member mapped to a
per-day dict of zeroes. -/
def initState (cfg : ConfigData) : RunState :=
  { schedule := []
    room_usage := []
    batch_schedule := []
    faculty_load := (trunc_pool cfg).map (fun f => (f, (days cfg).map (fun d => (d, 0))))
    conflicts := []
    total_classes_scheduled := 0 }

/-- Oracle values for the five random draws of one placement attempt
(app.py:208-214).  Each component is mapped onto the support of the
corresponding primitive by reducing it modulo the size of the range. -/
structure Draw where
  dayIdx : Nat
  slotIdx : Nat
  roomIdx : Nat
  batchIdx : Nat
  facIdx : Nat
deriving DecidableEq, Repr

/-- `day = random.choice(self.days)` (app.py:208): the oracle value indexes the
day list modulo its length. -/
def drawDay (cfg : ConfigData) (d : Draw) : String :=
  (days cfg).getD (d.dayIdx % (days cfg).length) ("")

/-- `slot = random.choice(self.time_slots)` (app.py:209). -/
def drawSlot (d : Draw) : String :=
  time_slots.getD (d.slotIdx % time_slots.length) ("")

/-- `room_num = random.randint(1, classrooms)` (app.py:210), defined for
`classrooms ≥ 1` (the `classrooms < 1` case raises and is handled in `attempt`). -/
def drawRoomNum (cfg : ConfigData) (d : Draw) : Nat :=
  1 + d.roomIdx % (eff_classrooms cfg).toNat

/-- `batch_num = random.randint(1, batches)` (app.py:212), defined for
`batches ≥ 1`. -/
def drawBatchNum (cfg : ConfigData) (d : Draw) : Nat :=
  1 + d.batchIdx % (eff_batches cfg).toNat

/-- `faculty = random.choice(faculty_names[:faculty_count])` (app.py:214),
defined for a nonempty pool. -/
def drawFaculty (cfg : ConfigData) (d : Draw) : String :=
  (trunc_pool cfg).getD (d.facIdx % (trunc_pool cfg).length) ("")

/-- `room_name in room_usage[day][slot]` (app.py:221). -/
def roomConflictB (st : RunState) (day slot room_name : String) : Bool :=
  decide ((day, slot, room_name) ∈ st.room_usage)

/-- `batch_name in batch_schedule[day][slot]` (app.py:226). -/
def batchConflictB (st : RunState) (day slot batch_name : String) : Bool :=
  decide ((day, slot, batch_name) ∈ st.batch_schedule)

/-- `faculty_load[faculty][day] >= max_daily_load` (app.py:232). -/
def overloadB (cfg : ConfigData) (st : RunState) (faculty day : String) : Bool :=
  decide (eff_max_load cfg ≤ (flGet st.faculty_load faculty day : Int))

/-- The `faculty_busy` linear scan over `schedule[day][slot].values()`
(app.py:237-242). -/
def busyB (st : RunState) (day slot faculty : String) : Bool :=
  st.schedule.any (fun e => decide (e.day = day ∧ e.slot = slot ∧ e.session.faculty = faculty))

/-- `not can_schedule`: at least one of the four predicates rejected the draw
(app.py:217-246). -/
def anyConflictB (cfg : ConfigData) (st : RunState) (d : Draw) : Bool :=
  roomConflictB st (drawDay cfg d) (drawSlot d) (roomName (drawRoomNum cfg d)) ||
  batchConflictB st (drawDay cfg d) (drawSlot d) (batchName (drawBatchNum cfg d)) ||
  overloadB cfg st (drawFaculty cfg d) (drawDay cfg d) ||
  busyB st (drawDay cfg d) (drawSlot d) (drawFaculty cfg d)

/-- `conflict_reasons` accumulated for a rejected draw, in evaluation order
(app.py:223, 228, 234, 246). -/
def conflictReasons (cfg : ConfigData) (st : RunState) (d : Draw) : List String :=
  (if roomConflictB st (drawDay cfg d) (drawSlot d) (roomName (drawRoomNum cfg d)) then
      ["Room occupied"] else []) ++
  (if batchConflictB st (drawDay cfg d) (drawSlot d) (batchName (drawBatchNum cfg d)) then
      ["Batch has another class"] else []) ++
  (if overloadB cfg st (drawFaculty cfg d) (drawDay cfg d) then
      ["Faculty overloaded"] else []) ++
  (if busyB st (drawDay cfg d) (drawSlot d) (drawFaculty cfg d) then
      ["Faculty conflict"] else [])

/-- The grid entry committed for a successful draw (app.py:253-259). -/
def attemptEntry (cfg : ConfigData) (subject : String) (d : Draw) : GridEntry :=
  { day := drawDay cfg d
    slot := drawSlot d
    classId := classIdOf subject (batchName (drawBatchNum cfg d)) (roomName (drawRoomNum cfg d))
    session := { subject := subject, room := roomName (drawRoomNum cfg d),
                 batch := batchName (drawBatchNum cfg d), faculty := drawFaculty cfg d } }

/-- The state after committing a session (app.py:249-267): insert into the
grid, mark the room and batch occupied, bump the faculty day counter, bump the
total counter. -/
def commitState (cfg : ConfigData) (subject : String) (d : Draw) (st : RunState) : RunState :=
  { schedule := gridInsert st.schedule (attemptEntry cfg subject d)
    room_usage := setAdd st.room_usage (drawDay cfg d, drawSlot d, roomName (drawRoomNum cfg d))
    batch_schedule :=
      setAdd st.batch_schedule (drawDay cfg d, drawSlot d, batchName (drawBatchNum cfg d))
    faculty_load := flBump st.faculty_load (drawFaculty cfg d) (drawDay cfg d)
    conflicts := st.conflicts
    total_classes_scheduled := st.total_classes_scheduled + 1 }

/-- The state after a rejected draw (app.py:269-276): append the
rejected-attempt record, leave everything else unchanged. -/
def rejectState (cfg : ConfigData) (subject : String) (d : Draw) (st : RunState) : RunState :=
  { st with conflicts := st.conflicts ++
      [{ subject := subject, day := drawDay cfg d, slot := drawSlot d,
         reasons := conflictReasons cfg st d }] }

/-- One iteration of the placement loop body (app.py:207-276): draw a random
day, slot, room, batch and faculty member, evaluate the four exclusivity
predicates, and either commit the session or record a rejected attempt.
Returns `true` when the session was committed.  `random.randint(1, n)` with
`n < 1` raises `ValueError` (app.py:210, 212), and `random.choice` of an empty
pool raises `IndexError` (app.py:214); these are the `.error` branches. -/
def attempt (cfg : ConfigData) (subject : String) (d : Draw) (st : RunState) :
    Except String (RunState × Bool) :=
  if eff_classrooms cfg < 1 then
    .error ("ValueError: empty range for randrange() (1, classrooms+1, classrooms)")
  else if eff_batches cfg < 1 then
    .error ("ValueError: empty range for randrange() (1, batches+1, batches)")
  else if (trunc_pool cfg).isEmpty then
    .error ("IndexError: Cannot choose from an empty sequence")
  else if anyConflictB cfg st d then .ok (rejectState cfg subject d st, false)
  else .ok (commitState cfg subject d st, true)

/-- The per-subject `while classes_scheduled_for_subject < target_classes and
attempts < 100` loop (app.py:203-276).  `fuel` is the remaining attempt budget
(100 at entry), `k` the cursor into the draw oracle, `scheduled` the
`classes_scheduled_for_subject` counter.  Returns the state and cursor after
the loop. -/
def placeSubject (cfg : ConfigData) (draws : Nat → Draw) (subject : String) (target : Int) :
    Nat → Nat → Nat → RunState → Except String (RunState × Nat)
  | 0, k, _, st => .ok (st, k)
  | fuel + 1, k, scheduled, st =>
    if (scheduled : Int) < target then
      match attempt cfg subject (draws k) st with
      | .error e => .error e
      | .ok (st', committed) =>
        placeSubject cfg draws subject target fuel (k + 1)
          (if committed then scheduled + 1 else scheduled) st'
    else .ok (st, k)

/-- `for subject in subjects:` (app.py:199): run the placement loop for every
subject in order, threading the state and the draw cursor. -/
def runSubjects (cfg : ConfigData) (draws : Nat → Draw) :
    List String → Nat → RunState → Except String (RunState × Nat)
  | [], k, st => .ok (st, k)
  | s :: rest, k, st =>
    match placeSubject cfg draws s (eff_classes_per_week cfg) 100 k 0 st with
    | .error e => .error e
    | .ok (st', k') => runSubjects cfg draws rest k' st'

/-- The whole placement phase of one candidate-generation run. -/
def runAll (cfg : ConfigData) (draws : Nat → Draw) : Except String (RunState × Nat) :=
  runSubjects cfg draws (eff_subjects cfg) 0 (initState cfg)

/-- Round-half-to-even of a rational to an integer: the semantics of Python
`round` on exactly represented values (the float arithmetic of the engine is
modelled exactly over `ℚ`). -/
def roundHalfEven (q : ℚ) : Int :=
  if q - ⌊q⌋ < 1/2 then ⌊q⌋
  else if 1/2 < q - ⌊q⌋ then ⌊q⌋ + 1
  else if ⌊q⌋ % 2 = 0 then ⌊q⌋ else ⌊q⌋ + 1

/-- `round(q, 1)`: round to one decimal place. -/
def pyRound1 (q : ℚ) : ℚ := (roundHalfEven (q * 10) : ℚ) / 10

/-- `total_possible_slots = len(self.days) * len(self.time_slots) * classrooms`
(app.py:279). -/
def total_possible_slots (cfg : ConfigData) : Int :=
  ((days cfg).length : Int) * (time_slots.length : Int) * eff_classrooms cfg

/-- `classroom_utilization = (sum(len(room_usage[day][slot]) for day ... for
slot ...) / total_possible_slots) * 100` (app.py:280); the per-cell set size is
the number of occupancy-list entries of that cell. -/
def classroom_utilization_raw (cfg : ConfigData) (st : RunState) : ℚ :=
  ((((days cfg).map (fun day => (time_slots.map (fun slot =>
        (st.room_usage.filter (fun t => decide (t.1 = day ∧ t.2.1 = slot))).length)).sum)).sum : ℚ)
      / (total_possible_slots cfg : ℚ)) * 100

/-- `faculty_loads = [sum(faculty_load[f].values()) for f in faculty_load]`
(app.py:283); dict iteration is in insertion order. -/
def faculty_loads (st : RunState) : List Nat :=
  st.faculty_load.map (fun p => (p.2.map Prod.snd).sum)

/-- Python `max` of a nonempty list of naturals (total with junk value 0 on `[]`,
which the engine never evaluates). -/
def pyMaxNat : List Nat → Nat
  | [] => 0
  | h :: t => t.foldl max h

/-- Python `min` of a nonempty list of naturals (total with junk value 0 on `[]`,
which the engine never evaluates). -/
def pyMinNat : List Nat → Nat
  | [] => 0
  | h :: t => t.foldl min h

/-- `faculty_balance` (app.py:284-288): `max(0, 100 - (max(loads) - min(loads)) * 5)`
when `faculty_loads` is nonempty, else 100; an integer quantity in Python. -/
def faculty_balance_int (st : RunState) : Int :=
  if (faculty_loads st).isEmpty then 100
  else max 0 (100 - ((pyMaxNat (faculty_loads st) : Int) - (pyMinNat (faculty_loads st) : Int)) * 5)

/-- `max(0, 100 - conflict_count * 5)` (app.py:296): an integer quantity. -/
def conflict_term (st : RunState) : Int := max 0 (100 - (st.conflicts.length : Int) * 5)

/-- `optimization_score` before rounding (app.py:293-297). -/
def optimization_score_raw (cfg : ConfigData) (st : RunState) : ℚ :=
  classroom_utilization_raw cfg st * 0.3 + (faculty_balance_int st : Int) * 0.3 +
    (conflict_term st : ℚ) * 0.4

/-- `(sum(faculty_loads) / len(faculty_loads)) if faculty_loads else 0`
(app.py:305) before rounding. -/
def faculty_utilization_raw (st : RunState) : ℚ :=
  if (faculty_loads st).isEmpty then 0
  else ((faculty_loads st).sum : ℚ) / ((faculty_loads st).length : ℚ)

/-- The `metrics` record (app.py:299-306); percentages and averages are rounded
to one decimal at this output boundary, the two counters are exact integers. -/
structure Metrics where
  classroom_utilization : ℚ
  faculty_load_balance : ℚ
  conflict_count : Nat
  optimization_score : ℚ
  total_classes_scheduled : Nat
  faculty_utilization : ℚ
deriving DecidableEq, Repr

/-- Build the `metrics` dict from the final run state (app.py:299-306). -/
def computeMetrics (cfg : ConfigData) (st : RunState) : Metrics :=
  { classroom_utilization := pyRound1 (classroom_utilization_raw cfg st)
    faculty_load_balance := pyRound1 ((faculty_balance_int st : ℚ))
    conflict_count := st.conflicts.length
    optimization_score := pyRound1 (optimization_score_raw cfg st)
    total_classes_scheduled := st.total_classes_scheduled
    faculty_utilization := pyRound1 (faculty_utilization_raw st) }

/-- The value returned by `generate_optimized_schedule` (app.py:308-314). -/
structure ScheduleResult where
  id : Nat
  name : String
  schedule : List GridEntry
  metrics : Metrics
  conflicts : List Conflict
deriving DecidableEq, Repr

/-- `ScheduleOptimizer.generate_optimized_schedule` (app.py:162-314): run the
placement loop over all subjects, then compute the metrics.  When
`total_possible_slots` is zero (exactly when `classrooms` is zero) the
utilization division raises `ZeroDivisionError` (app.py:280). -/
def generate_optimized_schedule (cfg : ConfigData) (draws : Nat → Draw) (option_num : Nat) :
    Except String ScheduleResult :=
  match runAll cfg draws with
  | .error e => .error e
  | .ok (st, _) =>
    if total_possible_slots cfg = 0 then .error ("ZeroDivisionError: division by zero")
    else
      .ok { id := option_num
            name := "Timetable Option " ++ toString option_num
            schedule := st.schedule
            metrics := computeMetrics cfg st
            conflicts := st.conflicts }

/-- `ScheduleOptimizer.suggest_improvements` (app.py:316-333): four
independently evaluated threshold conditions, appended in a fixed order.  The
method reads the metrics member of its timetable argument; it is a pure
function of that record. -/
def suggest_improvements (m : Metrics) : List String :=
  (if m.classroom_utilization < 70 then
      ["Consider reducing the number of classrooms or increasing class frequency"] else []) ++
  (if m.faculty_load_balance < 80 then
      ["Redistribute faculty workload for better balance"] else []) ++
  (if m.conflict_count > 5 then
      ["Review and resolve scheduling conflicts manually"] else []) ++
  (if m.optimization_score < 85 then
      ["Consider adjusting time slots or adding more resources"] else [])

/-- The state built by `ScheduleOptimizer.__init__` (app.py:154-160): the
stored raw record and the day list. -/
structure ScheduleOptimizerState where
  config : ConfigData
  self_days : List String
deriving DecidableEq, Repr

/-- `ScheduleOptimizer.__init__` (app.py:154-160).  The result is wrapped in
`Except` to record whether construction raises synchronously: the constructor
body stores the record and sets the day list, performs no validation, and
cannot raise. -/
def scheduleOptimizer_init (cfg : ConfigData) : Except String ScheduleOptimizerState :=
  .ok { config := cfg, self_days := days cfg }

/-! Basic facts about the fixed lists of the engine. -/

theorem days_ne_nil (cfg : ConfigData) : days cfg ≠ [] := by
  unfold days
  split <;> decide

theorem days_nodup (cfg : ConfigData) : (days cfg).Nodup := by
  unfold days
  split <;> decide

theorem time_slots_ne_nil : time_slots ≠ [] := by decide

theorem time_slots_nodup : time_slots.Nodup := by decide

theorem faculty_names_nodup : faculty_names.Nodup := by decide

theorem trunc_pool_nodup (cfg : ConfigData) : (trunc_pool cfg).Nodup := by
  have h : ∀ n, (faculty_names.take n).Nodup :=
    fun n => (List.take_sublist n faculty_names).nodup faculty_names_nodup
  unfold trunc_pool pySliceTo
  split <;> exact h _

theorem trunc_pool_ne_nil (cfg : ConfigData) (h : 1 ≤ eff_faculty_count cfg) :
    trunc_pool cfg ≠ [] := by
  unfold trunc_pool pySliceTo
  rw [if_pos (le_trans (by decide) h)]
  have hlen : (faculty_names.take (eff_faculty_count cfg).toNat).length =
      min (eff_faculty_count cfg).toNat faculty_names.length := List.length_take ..
  intro hnil
  rw [hnil] at hlen
  have h1 : 1 ≤ (eff_faculty_count cfg).toNat := by omega
  have h2 : 1 ≤ faculty_names.length := by decide
  simp at hlen
  omega

theorem getD_mod_mem {l : List String} (h : l ≠ []) (i : Nat) (d : String) :
    l.getD (i % l.length) d ∈ l := by
  have hl : 0 < l.length := List.length_pos.mpr h
  have hm : i % l.length < l.length := Nat.mod_lt _ hl
  rw [List.getD_eq_getElem?_getD, List.getElem?_eq_getElem hm]
  exact List.getElem_mem ..

theorem drawDay_mem (cfg : ConfigData) (d : Draw) : drawDay cfg d ∈ days cfg :=
  getD_mod_mem (days_ne_nil cfg) _ _

theorem drawSlot_mem (d : Draw) : drawSlot d ∈ time_slots :=
  getD_mod_mem time_slots_ne_nil _ _

theorem drawFaculty_mem (cfg : ConfigData) (d : Draw) (h : trunc_pool cfg ≠ []) :
    drawFaculty cfg d ∈ trunc_pool cfg :=
  getD_mod_mem h _ _

/-! Characters of a rendered natural number: `str(n)` contains no underscore,
which makes the composite `class_id` string decompose uniquely at its last two
underscores. -/

theorem ite_ne_underscore {c : Prop} [Decidable c] {a b : Char} (ha : a ≠ '_') (hb : b ≠ '_') :
    (if c then a else b) ≠ '_' := by
  by_cases h : c
  · rwa [if_pos h]
  · rwa [if_neg h]

theorem digitChar_ne_underscore (n : Nat) : Nat.digitChar n ≠ '_' := by
  unfold Nat.digitChar
  repeat' apply ite_ne_underscore
  all_goals decide

theorem toDigitsCore_ne_underscore (b : Nat) :
    ∀ (fuel n : Nat) (ds : List Char), (∀ c ∈ ds, c ≠ '_') →
      ∀ c ∈ Nat.toDigitsCore b fuel n ds, c ≠ '_' := by
  intro fuel
  induction fuel with
  | zero =>
    intro n ds h
    simpa [Nat.toDigitsCore] using h
  | succ fuel ih =>
    intro n ds h
    have hstep : Nat.toDigitsCore b (fuel + 1) n ds =
        if n / b = 0 then Nat.digitChar (n % b) :: ds
        else Nat.toDigitsCore b fuel (n / b) (Nat.digitChar (n % b) :: ds) := rfl
    rw [hstep]
    split
    · intro c hc
      rcases List.mem_cons.mp hc with rfl | hc2
      · exact digitChar_ne_underscore _
      · exact h _ hc2
    · apply ih
      intro c hc
      rcases List.mem_cons.mp hc with rfl | hc2
      · exact digitChar_ne_underscore _
      · exact h _ hc2

theorem toString_nat_ne_underscore (n : Nat) : ∀ c ∈ (toString n).data, c ≠ '_' := by
  intro c hc
  exact toDigitsCore_ne_underscore 10 (n + 1) n [] (by simp) c hc

theorem batchName_ne_underscore (n : Nat) : ∀ c ∈ (batchName n).data, c ≠ '_' := by
  intro c hc
  rw [batchName, String.data_append] at hc
  rcases List.mem_append.mp hc with h | h
  · exact (by decide : ∀ c ∈ ("Batch " : String).data, c ≠ '_') c h
  · exact toString_nat_ne_underscore n c h

theorem roomName_ne_underscore (n : Nat) : ∀ c ∈ (roomName n).data, c ≠ '_' := by
  intro c hc
  rw [roomName, String.data_append] at hc
  rcases List.mem_append.mp hc with h | h
  · exact (by decide : ∀ c ∈ ("Room " : String).data, c ≠ '_') c h
  · exact toString_nat_ne_underscore n c h

/-- Splitting two equal lists at an occurrence of `c` known not to occur in
either right part: the left and right parts agree. -/
theorem append_cons_right_inj {α : Type} (c : α) :
    ∀ (a x b y : List α), c ∉ x → c ∉ y → a ++ c :: x = b ++ c :: y → a = b ∧ x = y := by
  intro a
  induction a with
  | nil =>
    intro x b y hx hy h
    cases b with
    | nil =>
      simp only [List.nil_append, List.cons.injEq] at h
      exact ⟨rfl, h.2⟩
    | cons bh bt =>
      simp only [List.nil_append, List.cons_append, List.cons.injEq] at h
      exact absurd (h.2 ▸ List.mem_append_right bt (List.mem_cons_self c y)) hx
  | cons ah t ih =>
    intro x b y hx hy h
    cases b with
    | nil =>
      simp only [List.cons_append, List.nil_append, List.cons.injEq] at h
      exact absurd (h.2 ▸ List.mem_append_right t (List.mem_cons_self c x)) hy
    | cons bh bt =>
      simp only [List.cons_append, List.cons.injEq] at h
      obtain ⟨rfl, h2⟩ := h
      obtain ⟨h3, h4⟩ := ih x bt y hx hy h2
      exact ⟨by rw [h3], h4⟩

theorem classIdOf_data (s b r : String) :
    (classIdOf s b r).data = (s.data ++ '_' :: b.data) ++ '_' :: r.data := by
  have hu : ("_" : String).data = ['_'] := rfl
  simp [classIdOf, String.data_append, hu, List.append_assoc]

/-- The `class_id` string determines the batch-name component, as long as the
batch and room components contain no underscore (they are `Batch <digits>` and
`Room <digits>`). -/
theorem classIdOf_inj_batch {s₁ b₁ r₁ s₂ b₂ r₂ : String}
    (hb₁ : ∀ c ∈ b₁.data, c ≠ '_') (hr₁ : ∀ c ∈ r₁.data, c ≠ '_')
    (hb₂ : ∀ c ∈ b₂.data, c ≠ '_') (hr₂ : ∀ c ∈ r₂.data, c ≠ '_')
    (h : classIdOf s₁ b₁ r₁ = classIdOf s₂ b₂ r₂) : b₁ = b₂ := by
  have hd := congrArg String.data h
  rw [classIdOf_data, classIdOf_data] at hd
  have hnr₁ : '_' ∉ r₁.data := fun hc => hr₁ _ hc rfl
  have hnr₂ : '_' ∉ r₂.data := fun hc => hr₂ _ hc rfl
  have hnb₁ : '_' ∉ b₁.data := fun hc => hb₁ _ hc rfl
  have hnb₂ : '_' ∉ b₂.data := fun hc => hb₂ _ hc rfl
  obtain ⟨h1, _⟩ := append_cons_right_inj '_' _ _ _ _ hnr₁ hnr₂ hd
  obtain ⟨_, h2⟩ := append_cons_right_inj '_' _ _ _ _ hnb₁ hnb₂ h1
  exact String.ext h2

/-! Association-list lemmas for the `faculty_load` dict-of-dicts. -/

theorem lookup_map_pair {β : Type} (h : String → β) :
    ∀ (l : List String) (a : String), a ∈ l → (l.map (fun x => (x, h x))).lookup a = some (h a) := by
  intro l
  induction l with
  | nil => simp
  | cons x t ih =>
    intro a ha
    by_cases hax : a = x
    · subst hax
      simp [List.lookup_cons]
    · have hat : a ∈ t := by
        rcases List.mem_cons.mp ha with h1 | h2
        · exact absurd h1 hax
        · exact h2
      have hbeq : (a == x) = false := beq_eq_false_iff_ne.mpr hax
      rw [List.map_cons, List.lookup_cons, hbeq]
      exact ih a hat

theorem lookup_map_pair_none {β : Type} (h : String → β) :
    ∀ (l : List String) (a : String), a ∉ l → (l.map (fun x => (x, h x))).lookup a = none := by
  intro l
  induction l with
  | nil => simp
  | cons x t ih =>
    intro a ha
    have hax : a ≠ x := fun hc => ha (hc ▸ List.mem_cons_self x t)
    have hat : a ∉ t := fun hc => ha (List.mem_cons_of_mem x hc)
    have hbeq : (a == x) = false := beq_eq_false_iff_ne.mpr hax
    rw [List.map_cons, List.lookup_cons, hbeq]
    exact ih a hat

/-- The shape `faculty_load` always has: one entry per pool member, one inner
entry per day, with some table `g` of counters. -/
def shapedFL (cfg : ConfigData) (g : String → String → Nat) :
    List (String × List (String × Nat)) :=
  (trunc_pool cfg).map (fun f => (f, (days cfg).map (fun d => (d, g f d))))

theorem initState_fl (cfg : ConfigData) :
    (initState cfg).faculty_load = shapedFL cfg (fun _ _ => 0) := rfl

theorem flGet_shapedFL_mem (cfg : ConfigData) (g : String → String → Nat) {f d : String}
    (hf : f ∈ trunc_pool cfg) (hd : d ∈ days cfg) : flGet (shapedFL cfg g) f d = g f d := by
  unfold flGet shapedFL
  rw [lookup_map_pair _ _ _ hf]
  show (((days cfg).map (fun d => (d, g f d))).lookup d).getD 0 = g f d
  rw [lookup_map_pair (g f) _ _ hd]
  rfl

theorem flGet_shapedFL_not (cfg : ConfigData) (g : String → String → Nat) {f d : String}
    (h : f ∉ trunc_pool cfg ∨ d ∉ days cfg) : flGet (shapedFL cfg g) f d = 0 := by
  unfold flGet shapedFL
  rcases h with h | h
  · rw [lookup_map_pair_none _ _ _ h]
  · by_cases hf : f ∈ trunc_pool cfg
    · rw [lookup_map_pair _ _ _ hf]
      show (((days cfg).map (fun d => (d, g f d))).lookup d).getD 0 = 0
      rw [lookup_map_pair_none (g f) _ _ h]
      rfl
    · rw [lookup_map_pair_none _ _ _ hf]

theorem flBump_shapedFL (cfg : ConfigData) (g : String → String → Nat) (f d : String) :
    flBump (shapedFL cfg g) f d =
      shapedFL cfg (fun f' d' => if f' = f ∧ d' = d then g f' d' + 1 else g f' d') := by
  unfold flBump shapedFL
  rw [List.map_map]
  apply List.map_congr_left
  intro f₀ _
  simp only [Function.comp_apply]
  by_cases hf : f₀ = f
  · rw [if_pos hf]
    simp only [Prod.mk.injEq, true_and]
    rw [List.map_map]
    apply List.map_congr_left
    intro d₀ _
    simp only [Function.comp_apply]
    by_cases hd : d₀ = d
    · rw [if_pos hd, if_pos ⟨hf, hd⟩]
    · rw [if_neg hd, if_neg (fun hc => hd hc.2)]
  · rw [if_neg hf]
    simp only [Prod.mk.injEq, true_and]
    apply List.map_congr_left
    intro d₀ _
    rw [if_neg (fun hc => hf hc.1)]

theorem faculty_loads_shapedFL (cfg : ConfigData) (g : String → String → Nat) (st : RunState)
    (hst : st.faculty_load = shapedFL cfg g) :
    faculty_loads st = (trunc_pool cfg).map (fun f => ((days cfg).map (g f)).sum) := by
  unfold faculty_loads
  rw [hst]
  unfold shapedFL
  rw [List.map_map]
  apply List.map_congr_left
  intro f₀ _
  show (((days cfg).map (fun d => (d, g f₀ d))).map Prod.snd).sum = ((days cfg).map (g f₀)).sum
  rw [List.map_map]
  exact congrArg List.sum (List.map_congr_left (fun d _ => rfl))

/-! Lemmas about the set and grid insertion operations. -/

theorem mem_setAdd_of_mem {s : List (String × String × String)} {x a : String × String × String}
    (h : x ∈ s) : x ∈ setAdd s a := by
  unfold setAdd
  split
  · exact h
  · exact List.mem_append_left _ h

theorem mem_setAdd_self (s : List (String × String × String)) (a : String × String × String) :
    a ∈ setAdd s a := by
  unfold setAdd
  split
  · assumption
  · exact List.mem_append_right _ (List.mem_singleton.mpr rfl)

theorem gridInsert_fresh (g : List GridEntry) (e : GridEntry)
    (h : ∀ x ∈ g, ¬(x.day = e.day ∧ x.slot = e.slot ∧ x.classId = e.classId)) :
    gridInsert g e = g ++ [e] := by
  unfold gridInsert
  have hany : g.any (fun x => decide (x.day = e.day ∧ x.slot = e.slot ∧ x.classId = e.classId))
      = false := by
    rw [List.any_eq_false]
    intro x hx
    simpa using h x hx
  rw [hany]
  simp

/-! Generic counting lemmas used to relate the flat grid to per-cell and
per-faculty counters. -/

theorem sum_map_add_distrib {κ : Type} (f g : κ → Nat) :
    ∀ ks : List κ, (ks.map (fun kk => f kk + g kk)).sum = (ks.map f).sum + (ks.map g).sum := by
  intro ks
  induction ks with
  | nil => simp
  | cons k t ih =>
    simp only [List.map_cons, List.sum_cons, ih]
    omega

theorem sum_map_ite_zero {κ : Type} [DecidableEq κ] (a : κ) :
    ∀ ks : List κ, a ∉ ks → (ks.map (fun kk => if a = kk then 1 else 0)).sum = 0 := by
  intro ks
  induction ks with
  | nil => simp
  | cons k t ih =>
    intro h
    have h1 : a ≠ k := fun hc => h (hc ▸ List.mem_cons_self k t)
    have h2 : a ∉ t := fun hc => h (List.mem_cons_of_mem k hc)
    simp only [List.map_cons, List.sum_cons, if_neg h1, ih h2]

theorem sum_map_ite_one {κ : Type} [DecidableEq κ] (a : κ) :
    ∀ ks : List κ, a ∈ ks → ks.Nodup →
      (ks.map (fun kk => if a = kk then 1 else 0)).sum = 1 := by
  intro ks
  induction ks with
  | nil => simp
  | cons k t ih =>
    intro hmem hnd
    by_cases hak : a = k
    · subst hak
      have : a ∉ t := (List.nodup_cons.mp hnd).1
      simp [List.map_cons, List.sum_cons, sum_map_ite_zero a t this]
    · have hat : a ∈ t := by
        rcases List.mem_cons.mp hmem with h1 | h2
        · exact absurd h1 hak
        · exact h2
      simp only [List.map_cons, List.sum_cons, if_neg hak,
        ih hat (List.nodup_cons.mp hnd).2]

/-- The length of a list is the sum, over a duplicate-free list of keys
covering it, of the sizes of its key-fibers. -/
theorem length_eq_sum_filter {α κ : Type} [DecidableEq κ] (key : α → κ) (ks : List κ)
    (hnd : ks.Nodup) :
    ∀ l : List α, (∀ a ∈ l, key a ∈ ks) →
      (ks.map (fun kk => (l.filter (fun a => decide (key a = kk))).length)).sum = l.length := by
  intro l
  induction l with
  | nil => simp
  | cons a t ih =>
    intro hmem
    have hkey : key a ∈ ks := hmem a (List.mem_cons_self a t)
    have ht : ∀ x ∈ t, key x ∈ ks := fun x hx => hmem x (List.mem_cons_of_mem a hx)
    have hsplit : ∀ kk : κ, ((a :: t).filter (fun x => decide (key x = kk))).length =
        (t.filter (fun x => decide (key x = kk))).length + (if key a = kk then 1 else 0) := by
      intro kk
      rw [List.filter_cons]
      by_cases hc : key a = kk
      · simp [hc]
      · simp [hc]
    calc (ks.map (fun kk => ((a :: t).filter (fun x => decide (key x = kk))).length)).sum
        = (ks.map (fun kk => (t.filter (fun x => decide (key x = kk))).length +
            (if key a = kk then 1 else 0))).sum := by
          exact congrArg List.sum (List.map_congr_left (fun kk _ => hsplit kk))
      _ = (ks.map (fun kk => (t.filter (fun x => decide (key x = kk))).length)).sum +
            (ks.map (fun kk => if key a = kk then 1 else 0)).sum :=
          sum_map_add_distrib _ _ ks
      _ = t.length + 1 := by rw [ih ht, sum_map_ite_one (key a) ks hkey hnd]
      _ = (a :: t).length := by simp

/-! The invariant maintained by every state of a placement run: the tracking
sets cover the grid, grid entries are canonical, cells hold pairwise-distinct
rooms and batches, and the faculty counters agree with the grid. -/

structure Inv (cfg : ConfigData) (st : RunState) : Prop where
  room_mem : ∀ e ∈ st.schedule, (e.day, e.slot, e.session.room) ∈ st.room_usage
  batch_mem : ∀ e ∈ st.schedule, (e.day, e.slot, e.session.batch) ∈ st.batch_schedule
  day_mem : ∀ e ∈ st.schedule, e.day ∈ days cfg
  slot_mem : ∀ e ∈ st.schedule, e.slot ∈ time_slots
  fac_mem : ∀ e ∈ st.schedule, e.session.faculty ∈ trunc_pool cfg
  canon : ∀ e ∈ st.schedule,
    (∃ n, e.session.batch = batchName n) ∧ (∃ m, e.session.room = roomName m) ∧
      e.classId = classIdOf e.session.subject e.session.batch e.session.room
  distinct : st.schedule.Pairwise (fun a b => a.day = b.day → a.slot = b.slot →
      a.session.room ≠ b.session.room ∧ a.session.batch ≠ b.session.batch)
  fl_shape : ∃ g, st.faculty_load = shapedFL cfg g
  load_eq : ∀ f d, flGet st.faculty_load f d =
      (st.schedule.filter (fun e => decide (e.day = d ∧ e.session.faculty = f))).length
  load_le : ∀ f d, (flGet st.faculty_load f d : Int) ≤ max 0 (eff_max_load cfg)
  count_eq : st.schedule.length = st.total_classes_scheduled

theorem flGet_initState (cfg : ConfigData) (f d : String) :
    flGet (initState cfg).faculty_load f d = 0 := by
  rw [initState_fl]
  by_cases hf : f ∈ trunc_pool cfg
  · by_cases hd : d ∈ days cfg
    · rw [flGet_shapedFL_mem cfg _ hf hd]
    · exact flGet_shapedFL_not cfg _ (Or.inr hd)
  · exact flGet_shapedFL_not cfg _ (Or.inl hf)

theorem Inv_init (cfg : ConfigData) : Inv cfg (initState cfg) := by
  refine ⟨?_, ?_, ?_, ?_, ?_, ?_, ?_, ⟨fun _ _ => 0, initState_fl cfg⟩, ?_, ?_, rfl⟩
  · intro e he
    exact absurd he (by simp [initState])
  · intro e he
    exact absurd he (by simp [initState])
  · intro e he
    exact absurd he (by simp [initState])
  · intro e he
    exact absurd he (by simp [initState])
  · intro e he
    exact absurd he (by simp [initState])
  · intro e he
    exact absurd he (by simp [initState])
  · exact List.Pairwise.nil
  · intro f d
    rw [flGet_initState]
    rfl
  · intro f d
    rw [flGet_initState]
    exact le_max_left 0 _

theorem Inv_reject (cfg : ConfigData) (st : RunState) (subject : String) (d : Draw)
    (h : Inv cfg st) : Inv cfg (rejectState cfg subject d st) := by
  obtain ⟨h1, h2, h3, h4, h5, h6, h7, h8, h9, h10, h11⟩ := h
  exact ⟨h1, h2, h3, h4, h5, h6, h7, h8, h9, h10, h11⟩

theorem Inv_commit (cfg : ConfigData) (st : RunState) (subject : String) (d : Draw)
    (hinv : Inv cfg st) (hpool : trunc_pool cfg ≠ [])
    (hroom : roomConflictB st (drawDay cfg d) (drawSlot d) (roomName (drawRoomNum cfg d)) = false)
    (hbatch : batchConflictB st (drawDay cfg d) (drawSlot d) (batchName (drawBatchNum cfg d)) = false)
    (hover : overloadB cfg st (drawFaculty cfg d) (drawDay cfg d) = false)
    (hbusy : busyB st (drawDay cfg d) (drawSlot d) (drawFaculty cfg d) = false) :
    Inv cfg (commitState cfg subject d st) := by
  have hroomP : (drawDay cfg d, drawSlot d, roomName (drawRoomNum cfg d)) ∉ st.room_usage := by
    simpa [roomConflictB] using hroom
  have hbatchP : (drawDay cfg d, drawSlot d, batchName (drawBatchNum cfg d)) ∉ st.batch_schedule := by
    simpa [batchConflictB] using hbatch
  have hoverP : (flGet st.faculty_load (drawFaculty cfg d) (drawDay cfg d) : Int) <
      eff_max_load cfg := by
    have h1 : ¬(eff_max_load cfg ≤ (flGet st.faculty_load (drawFaculty cfg d) (drawDay cfg d) : Int)) := by
      simpa [overloadB] using hover
    omega
  have hfresh : ∀ x ∈ st.schedule, ¬(x.day = (attemptEntry cfg subject d).day ∧
      x.slot = (attemptEntry cfg subject d).slot ∧
      x.classId = (attemptEntry cfg subject d).classId) := by
    intro x hx hcon
    obtain ⟨hd1, hd2, hd3⟩ := hcon
    obtain ⟨⟨n, hbn⟩, ⟨m, hrm⟩, hid⟩ := hinv.canon x hx
    have hbeq : x.session.batch = batchName (drawBatchNum cfg d) := by
      apply classIdOf_inj_batch (hbn ▸ batchName_ne_underscore n) (hrm ▸ roomName_ne_underscore m)
        (batchName_ne_underscore (drawBatchNum cfg d)) (roomName_ne_underscore (drawRoomNum cfg d))
      rw [← hid]
      exact hd3
    have hmem := hinv.batch_mem x hx
    rw [hd1, hd2, hbeq] at hmem
    exact hbatchP hmem
  have hins : gridInsert st.schedule (attemptEntry cfg subject d) =
      st.schedule ++ [attemptEntry cfg subject d] := gridInsert_fresh _ _ hfresh
  obtain ⟨g, hg⟩ := hinv.fl_shape
  have hfacmem : drawFaculty cfg d ∈ trunc_pool cfg := drawFaculty_mem cfg d hpool
  have hdaymem : drawDay cfg d ∈ days cfg := drawDay_mem cfg d
  have hgold : ∀ f dd, flGet st.faculty_load f dd =
      (if f ∈ trunc_pool cfg ∧ dd ∈ days cfg then g f dd else 0) := by
    intro f dd
    rw [hg]
    by_cases hc : f ∈ trunc_pool cfg ∧ dd ∈ days cfg
    · rw [if_pos hc]
      exact flGet_shapedFL_mem cfg g hc.1 hc.2
    · rw [if_neg hc]
      rcases Decidable.not_and_iff_or_not.mp hc with h1 | h1
      · exact flGet_shapedFL_not cfg g (Or.inl h1)
      · exact flGet_shapedFL_not cfg g (Or.inr h1)
  have hnewfl : (commitState cfg subject d st).faculty_load =
      shapedFL cfg (fun f' d' =>
        if f' = drawFaculty cfg d ∧ d' = drawDay cfg d then g f' d' + 1 else g f' d') := by
    show flBump st.faculty_load (drawFaculty cfg d) (drawDay cfg d) = _
    rw [hg, flBump_shapedFL]
  have hfilter_single : ∀ (f dd : String),
      ([attemptEntry cfg subject d].filter
          (fun e => decide (e.day = dd ∧ e.session.faculty = f))).length =
        (if f = drawFaculty cfg d ∧ dd = drawDay cfg d then 1 else 0) := by
    intro f dd
    by_cases hc : f = drawFaculty cfg d ∧ dd = drawDay cfg d
    · obtain ⟨hc1, hc2⟩ := hc
      subst hc1
      subst hc2
      rw [if_pos ⟨rfl, rfl⟩]
      simp [attemptEntry]
    · rw [if_neg hc]
      have hne : ¬((attemptEntry cfg subject d).day = dd ∧
          (attemptEntry cfg subject d).session.faculty = f) :=
        fun hcc => hc ⟨hcc.2.symm, hcc.1.symm⟩
      simp only [List.filter, decide_eq_false hne]
      rfl
  refine ⟨?_, ?_, ?_, ?_, ?_, ?_, ?_, ⟨_, hnewfl⟩, ?_, ?_, ?_⟩
  · show ∀ e ∈ gridInsert st.schedule (attemptEntry cfg subject d), _
    rw [hins]
    intro e he
    rcases List.mem_append.mp he with he | he
    · exact mem_setAdd_of_mem (hinv.room_mem e he)
    · rw [List.mem_singleton.mp he]
      exact mem_setAdd_self _ _
  · show ∀ e ∈ gridInsert st.schedule (attemptEntry cfg subject d), _
    rw [hins]
    intro e he
    rcases List.mem_append.mp he with he | he
    · exact mem_setAdd_of_mem (hinv.batch_mem e he)
    · rw [List.mem_singleton.mp he]
      exact mem_setAdd_self _ _
  · show ∀ e ∈ gridInsert st.schedule (attemptEntry cfg subject d), _
    rw [hins]
    intro e he
    rcases List.mem_append.mp he with he | he
    · exact hinv.day_mem e he
    · rw [List.mem_singleton.mp he]
      exact hdaymem
  · show ∀ e ∈ gridInsert st.schedule (attemptEntry cfg subject d), _
    rw [hins]
    intro e he
    rcases List.mem_append.mp he with he | he
    · exact hinv.slot_mem e he
    · rw [List.mem_singleton.mp he]
      exact drawSlot_mem d
  · show ∀ e ∈ gridInsert st.schedule (attemptEntry cfg subject d), _
    rw [hins]
    intro e he
    rcases List.mem_append.mp he with he | he
    · exact hinv.fac_mem e he
    · rw [List.mem_singleton.mp he]
      exact hfacmem
  · show ∀ e ∈ gridInsert st.schedule (attemptEntry cfg subject d), _
    rw [hins]
    intro e he
    rcases List.mem_append.mp he with he | he
    · exact hinv.canon e he
    · rw [List.mem_singleton.mp he]
      exact ⟨⟨drawBatchNum cfg d, rfl⟩, ⟨drawRoomNum cfg d, rfl⟩, rfl⟩
  · show (gridInsert st.schedule (attemptEntry cfg subject d)).Pairwise _
    rw [hins, List.pairwise_append]
    refine ⟨hinv.distinct, by simp, ?_⟩
    intro a ha b hb
    rw [List.mem_singleton.mp hb]
    intro hd1 hd2
    constructor
    · intro hreq
      have hmem := hinv.room_mem a ha
      rw [hd1, hd2, hreq] at hmem
      exact hroomP hmem
    · intro hbeq
      have hmem := hinv.batch_mem a ha
      rw [hd1, hd2, hbeq] at hmem
      exact hbatchP hmem
  · intro f dd
    show flGet (commitState cfg subject d st).faculty_load f dd =
      ((gridInsert st.schedule (attemptEntry cfg subject d)).filter
        (fun e => decide (e.day = dd ∧ e.session.faculty = f))).length
    rw [hnewfl, hins, List.filter_append, List.length_append, hfilter_single f dd]
    have hold := hinv.load_eq f dd
    by_cases hm : f ∈ trunc_pool cfg ∧ dd ∈ days cfg
    · rw [flGet_shapedFL_mem cfg _ hm.1 hm.2]
      have : flGet st.faculty_load f dd = g f dd := by rw [hgold, if_pos hm]
      rw [this] at hold
      rw [← hold]
      by_cases hc : f = drawFaculty cfg d ∧ dd = drawDay cfg d
      · rw [if_pos hc, if_pos hc]
      · rw [if_neg hc, if_neg hc]
        omega
    · rw [flGet_shapedFL_not cfg _ (Decidable.not_and_iff_or_not.mp hm)]
      have h0 : flGet st.faculty_load f dd = 0 := by rw [hgold, if_neg hm]
      rw [h0] at hold
      have hc : ¬(f = drawFaculty cfg d ∧ dd = drawDay cfg d) := by
        intro hcc
        exact hm ⟨hcc.1 ▸ hfacmem, hcc.2 ▸ hdaymem⟩
      rw [if_neg hc, ← hold]
  · intro f dd
    show (flGet (commitState cfg subject d st).faculty_load f dd : Int) ≤ _
    rw [hnewfl]
    by_cases hm : f ∈ trunc_pool cfg ∧ dd ∈ days cfg
    · rw [flGet_shapedFL_mem cfg _ hm.1 hm.2]
      by_cases hc : f = drawFaculty cfg d ∧ dd = drawDay cfg d
      · rw [if_pos hc]
        have hgo : (g (drawFaculty cfg d) (drawDay cfg d) : Int) < eff_max_load cfg := by
          have := hoverP
          rw [hgold, if_pos ⟨hfacmem, hdaymem⟩] at this
          exact this
        have hle : eff_max_load cfg ≤ max 0 (eff_max_load cfg) := le_max_right 0 _
        obtain ⟨hc1, hc2⟩ := hc
        subst hc1
        subst hc2
        omega
      · rw [if_neg hc]
        have := hinv.load_le f dd
        rw [hgold, if_pos hm] at this
        exact this
    · rw [flGet_shapedFL_not cfg _ (Decidable.not_and_iff_or_not.mp hm)]
      have : ((0 : Nat) : Int) ≤ max 0 (eff_max_load cfg) := by
        simp
      exact this
  · show (gridInsert st.schedule (attemptEntry cfg subject d)).length =
      st.total_classes_scheduled + 1
    rw [hins, List.length_append, hinv.count_eq]
    rfl

theorem attempt_ok_inv (cfg : ConfigData) (subject : String) (d : Draw) (st st' : RunState)
    (b : Bool) (hinv : Inv cfg st) (h : attempt cfg subject d st = .ok (st', b)) :
    Inv cfg st' := by
  unfold attempt at h
  split at h
  · exact absurd h (by simp)
  · split at h
    · exact absurd h (by simp)
    · split at h
      · exact absurd h (by simp)
      · rename_i hpool'
        split at h
        · injection h with hpair
          cases hpair
          exact Inv_reject cfg st subject d hinv
        · rename_i hconf
          injection h with hpair
          cases hpair
          have hconf' : anyConflictB cfg st d = false := by
            cases hx : anyConflictB cfg st d
            · rfl
            · exact absurd hx hconf
          unfold anyConflictB at hconf'
          simp only [Bool.or_eq_false_iff] at hconf'
          obtain ⟨⟨⟨hroom, hbatch⟩, hover⟩, hbusy⟩ := hconf'
          have hpoolne : trunc_pool cfg ≠ [] := by
            simpa using hpool'
          exact Inv_commit cfg st subject d hinv hpoolne hroom hbatch hover hbusy

theorem placeSubject_inv (cfg : ConfigData) (draws : Nat → Draw) (subject : String)
    (target : Int) :
    ∀ (fuel k sched : Nat) (st st' : RunState) (k' : Nat), Inv cfg st →
      placeSubject cfg draws subject target fuel k sched st = .ok (st', k') → Inv cfg st' := by
  intro fuel
  induction fuel with
  | zero =>
    intro k sched st st' k' hinv h
    unfold placeSubject at h
    injection h with hpair
    cases hpair
    exact hinv
  | succ fuel ih =>
    intro k sched st st' k' hinv h
    unfold placeSubject at h
    split at h
    · cases hat : attempt cfg subject (draws k) st with
      | error e =>
        rw [hat] at h
        exact absurd h (by simp)
      | ok p =>
        obtain ⟨st₀, b⟩ := p
        rw [hat] at h
        exact ih (k + 1) _ st₀ st' k'
          (attempt_ok_inv cfg subject (draws k) st st₀ b hinv hat) h
    · injection h with hpair
      cases hpair
      exact hinv

theorem runSubjects_inv (cfg : ConfigData) (draws : Nat → Draw) :
    ∀ (subjects : List String) (k : Nat) (st st' : RunState) (k' : Nat), Inv cfg st →
      runSubjects cfg draws subjects k st = .ok (st', k') → Inv cfg st' := by
  intro subjects
  induction subjects with
  | nil =>
    intro k st st' k' hinv h
    unfold runSubjects at h
    injection h with hpair
    cases hpair
    exact hinv
  | cons s rest ih =>
    intro k st st' k' hinv h
    unfold runSubjects at h
    cases hp : placeSubject cfg draws s (eff_classes_per_week cfg) 100 k 0 st with
    | error e =>
      rw [hp] at h
      exact absurd h (by simp)
    | ok q =>
      obtain ⟨st₀, k₀⟩ := q
      rw [hp] at h
      exact ih k₀ st₀ st' k'
        (placeSubject_inv cfg draws s (eff_classes_per_week cfg) 100 k 0 st st₀ k₀ hinv hp) h

theorem runAll_inv (cfg : ConfigData) (draws : Nat → Draw) (st : RunState) (k : Nat)
    (h : runAll cfg draws = .ok (st, k)) : Inv cfg st :=
  runSubjects_inv cfg draws (eff_subjects cfg) 0 (initState cfg) st k (Inv_init cfg) h

/-! Termination and totality of the loop under nonempty draw ranges. -/

theorem attempt_isOk (cfg : ConfigData) (subject : String) (d : Draw) (st : RunState)
    (h1 : 1 ≤ eff_classrooms cfg) (h2 : 1 ≤ eff_batches cfg) (h3 : trunc_pool cfg ≠ []) :
    ∃ p, attempt cfg subject d st = .ok p := by
  unfold attempt
  rw [if_neg (by omega), if_neg (by omega), if_neg (by simpa using h3)]
  by_cases hc : anyConflictB cfg st d
  · rw [if_pos hc]
    exact ⟨_, rfl⟩
  · rw [if_neg hc]
    exact ⟨_, rfl⟩

theorem placeSubject_isOk (cfg : ConfigData) (draws : Nat → Draw) (subject : String)
    (target : Int) (h1 : 1 ≤ eff_classrooms cfg) (h2 : 1 ≤ eff_batches cfg)
    (h3 : trunc_pool cfg ≠ []) :
    ∀ (fuel k sched : Nat) (st : RunState),
      ∃ q, placeSubject cfg draws subject target fuel k sched st = .ok q := by
  intro fuel
  induction fuel with
  | zero =>
    intro k sched st
    exact ⟨(st, k), rfl⟩
  | succ fuel ih =>
    intro k sched st
    unfold placeSubject
    split
    · obtain ⟨⟨st₀, b⟩, hat⟩ := attempt_isOk cfg subject (draws k) st h1 h2 h3
      rw [hat]
      exact ih (k + 1) _ st₀
    · exact ⟨(st, k), rfl⟩

theorem runSubjects_isOk (cfg : ConfigData) (draws : Nat → Draw)
    (h1 : 1 ≤ eff_classrooms cfg) (h2 : 1 ≤ eff_batches cfg) (h3 : trunc_pool cfg ≠ []) :
    ∀ (subjects : List String) (k : Nat) (st : RunState),
      ∃ q, runSubjects cfg draws subjects k st = .ok q := by
  intro subjects
  induction subjects with
  | nil =>
    intro k st
    exact ⟨(st, k), rfl⟩
  | cons s rest ih =>
    intro k st
    unfold runSubjects
    obtain ⟨⟨st₀, k₀⟩, hp⟩ :=
      placeSubject_isOk cfg draws s (eff_classes_per_week cfg) h1 h2 h3 100 k 0 st
    rw [hp]
    exact ih k₀ st₀

theorem total_possible_slots_ne_zero (cfg : ConfigData) (h : eff_classrooms cfg ≠ 0) :
    total_possible_slots cfg ≠ 0 := by
  unfold total_possible_slots
  have hd : ((days cfg).length : Int) ≠ 0 := by
    have := List.length_pos.mpr (days_ne_nil cfg)
    omega
  have hs : ((time_slots.length : Nat) : Int) ≠ 0 := by decide
  exact mul_ne_zero (mul_ne_zero hd hs) h

theorem generate_isOk (cfg : ConfigData) (draws : Nat → Draw) (n : Nat)
    (h1 : 1 ≤ eff_classrooms cfg) (h2 : 1 ≤ eff_batches cfg) (h3 : trunc_pool cfg ≠ []) :
    (generate_optimized_schedule cfg draws n).isOk = true := by
  unfold generate_optimized_schedule
  obtain ⟨⟨st, k⟩, hr⟩ := runSubjects_isOk cfg draws h1 h2 h3 (eff_subjects cfg) 0 (initState cfg)
  unfold runAll
  rw [hr]
  have hne := total_possible_slots_ne_zero cfg (by omega)
  simp [Except.isOk, Except.toBool, hne]

theorem placeSubject_budget (cfg : ConfigData) (draws : Nat → Draw) (subject : String)
    (target : Int) :
    ∀ (fuel k sched : Nat) (st st' : RunState) (k' : Nat),
      placeSubject cfg draws subject target fuel k sched st = .ok (st', k') →
      k' ≤ k + fuel := by
  intro fuel
  induction fuel with
  | zero =>
    intro k sched st st' k' h
    unfold placeSubject at h
    injection h with hpair
    cases hpair
    omega
  | succ fuel ih =>
    intro k sched st st' k' h
    unfold placeSubject at h
    split at h
    · cases hat : attempt cfg subject (draws k) st with
      | error e =>
        rw [hat] at h
        exact absurd h (by simp)
      | ok p =>
        obtain ⟨st₀, b⟩ := p
        rw [hat] at h
        have := ih (k + 1) _ st₀ st' k' h
        omega
    · injection h with hpair
      cases hpair
      omega

theorem placeSubject_stop (cfg : ConfigData) (draws : Nat → Draw) (subject : String)
    (target : Int) (fuel k sched : Nat) (st : RunState) (h : target ≤ (sched : Int)) :
    placeSubject cfg draws subject target fuel k sched st = .ok (st, k) := by
  cases fuel with
  | zero => rfl
  | succ fuel =>
    unfold placeSubject
    rw [if_neg (by omega)]

theorem generate_ok_spec (cfg : ConfigData) (draws : Nat → Draw) (n : Nat) (st : RunState)
    (k : Nat) (res : ScheduleResult) (h : runAll cfg draws = .ok (st, k))
    (hg : generate_optimized_schedule cfg draws n = .ok res) :
    res.schedule = st.schedule ∧ res.metrics = computeMetrics cfg st ∧
      res.conflicts = st.conflicts := by
  unfold generate_optimized_schedule at hg
  rw [h] at hg
  have hg2 : (if total_possible_slots cfg = 0 then
        (Except.error ("ZeroDivisionError: division by zero") : Except String ScheduleResult)
      else .ok { id := n, name := "Timetable Option " ++ toString n, schedule := st.schedule,
                 metrics := computeMetrics cfg st, conflicts := st.conflicts }) = .ok res := hg
  split at hg2
  · exact absurd hg2 (by simp)
  · injection hg2 with h2
    rw [← h2]
    exact ⟨rfl, rfl, rfl⟩

/-! Concrete inputs used to instantiate the theorems below. -/

/-- A constant draw oracle. -/
def drawsC : Nat → Draw := fun _ => ⟨0, 0, 0, 0, 0⟩

/-- A minimal configuration: one subject with a target of zero sessions and
one room, one batch and one faculty member. -/
def cfg1 : ConfigData :=
  { subject_list := some ["Math"], classrooms := some 1, batches := some 1,
    faculty_count := some 1, classes_per_week := some 0 }

/-- The schedule produced for `cfg1` by any draw oracle. -/
def res1 : ScheduleResult :=
  { id := 1, name := "Timetable Option " ++ toString 1, schedule := [],
    metrics := computeMetrics cfg1 (initState cfg1), conflicts := [] }

/-- Like `cfg1` but with a negative configured max daily load. -/
def cfgC1x : ConfigData :=
  { subject_list := some ["Math"], classrooms := some 1, batches := some 1,
    faculty_count := some 1, classes_per_week := some 0, max_load := some (-1) }

/-- The schedule produced for `cfgC1x` by any draw oracle. -/
def resC1x : ScheduleResult :=
  { id := 1, name := "Timetable Option " ++ toString 1, schedule := [],
    metrics := computeMetrics cfgC1x (initState cfgC1x), conflicts := [] }

/-- C1 (corrected: the per-day faculty load bound additionally requires the
configured max daily load to be nonnegative).  For every configuration with
room count, batch count and faculty count at least 1 and nonnegative max daily
load, after a completed candidate-generation run of
`generate_optimized_schedule` the resulting grid contains no two sessions with
the same (day, slot, room), no two sessions with the same (day, slot, batch),
and no faculty member whose count of sessions on any single day exceeds the
configured max daily load. -/
theorem C1_postrun_invariants (cfg : ConfigData) (draws : Nat → Draw) (n : Nat)
    (st : RunState) (k : Nat) (res : ScheduleResult)
    (hrooms : 1 ≤ eff_classrooms cfg) (hbatches : 1 ≤ eff_batches cfg)
    (hfac : 1 ≤ eff_faculty_count cfg) (hload : 0 ≤ eff_max_load cfg)
    (hrun : runAll cfg draws = .ok (st, k))
    (hgen : generate_optimized_schedule cfg draws n = .ok res) :
    (∀ e₁ ∈ res.schedule, ∀ e₂ ∈ res.schedule, e₁ ≠ e₂ → e₁.day = e₂.day → e₁.slot = e₂.slot →
      e₁.session.room ≠ e₂.session.room ∧ e₁.session.batch ≠ e₂.session.batch) ∧
    (∀ f d,
      ((res.schedule.filter (fun e => decide (e.day = d ∧ e.session.faculty = f))).length : Int)
        ≤ eff_max_load cfg) := by
  obtain ⟨hsch, _, _⟩ := generate_ok_spec cfg draws n st k res hrun hgen
  have hinv := runAll_inv cfg draws st k hrun
  constructor
  · rw [hsch]
    intro e₁ h₁ e₂ h₂ hne hd hs
    have hsymm : Symmetric (fun a b : GridEntry => a.day = b.day → a.slot = b.slot →
        a.session.room ≠ b.session.room ∧ a.session.batch ≠ b.session.batch) := by
      intro a b hab hd' hs'
      obtain ⟨hr, hb⟩ := hab hd'.symm hs'.symm
      exact ⟨fun hc => hr hc.symm, fun hc => hb hc.symm⟩
    exact List.Pairwise.forall hsymm hinv.distinct h₁ h₂ hne hd hs
  · intro f dd
    rw [hsch]
    have h1 := hinv.load_eq f dd
    have h2 := hinv.load_le f dd
    rw [h1, max_eq_right hload] at h2
    exact h2

/-- Witness for C1 at the concrete configuration `cfg1`. -/
theorem C1_postrun_invariants_witness :
    (∀ e₁ ∈ res1.schedule, ∀ e₂ ∈ res1.schedule, e₁ ≠ e₂ → e₁.day = e₂.day → e₁.slot = e₂.slot →
      e₁.session.room ≠ e₂.session.room ∧ e₁.session.batch ≠ e₂.session.batch) ∧
    (∀ f d,
      ((res1.schedule.filter (fun e => decide (e.day = d ∧ e.session.faculty = f))).length : Int)
        ≤ eff_max_load cfg1) :=
  C1_postrun_invariants cfg1 drawsC 1 (initState cfg1) 0 res1 (by decide) (by decide) (by decide)
    (by decide) rfl rfl

/-- Counterexample to C1 as stated: with a configured max daily load of -1
(and room, batch and faculty counts all 1) the run completes, every faculty
member has zero sessions, and the zero count already exceeds the configured
max daily load. -/
theorem C1_counterexample :
    (1 ≤ eff_classrooms cfgC1x ∧ 1 ≤ eff_batches cfgC1x ∧ 1 ≤ eff_faculty_count cfgC1x) ∧
    generate_optimized_schedule cfgC1x drawsC 1 = .ok resC1x ∧
    eff_max_load cfgC1x = -1 ∧
    ¬(((resC1x.schedule.filter
        (fun e => decide (e.day = "Monday" ∧ e.session.faculty = "Dr. Smith"))).length : Int)
      ≤ eff_max_load cfgC1x) := by
  refine ⟨by decide, rfl, rfl, ?_⟩
  decide

/-- C2 (corrected: construction never fails).  `ScheduleOptimizer.__init__`
performs no validation at all: it succeeds on every raw record, including
records with an empty subject list or negative numeric fields, and no
`InvalidConfigError` exists anywhere in the code; the documented defaults are
applied only when the fields are read inside `generate_optimized_schedule`. -/
theorem C2_init_never_fails (cfg : ConfigData) :
    scheduleOptimizer_init cfg = .ok { config := cfg, self_days := days cfg } := rfl

/-- Counterexample to C2 as stated: construction from a record with an empty
subject list, and from a record with a negative room count, succeeds instead
of failing with an `InvalidConfigError`. -/
theorem C2_counterexample :
    scheduleOptimizer_init { subject_list := some [] } =
      .ok { config := { subject_list := some [] }, self_days := base_days } ∧
    scheduleOptimizer_init { classrooms := some (-3) } =
      .ok { config := { classrooms := some (-3) }, self_days := base_days } :=
  ⟨rfl, rfl⟩

/-- C3 (amended: a zero room count is not a valid engine input).  Whenever the
effective room count is 0, `generate_optimized_schedule` always raises: the
the room draw of the first placement attempt raises `ValueError` when some
subject has a positive target, and otherwise the utilization division by
`total_possible_slots = 0` raises `ZeroDivisionError`; no run with zero rooms
ever completes, so no 100-conflict budget is ever recorded. -/
theorem C3_zero_rooms_always_raises (cfg : ConfigData) (draws : Nat → Draw) (n : Nat)
    (h : eff_classrooms cfg = 0) :
    (generate_optimized_schedule cfg draws n).isOk = false := by
  unfold generate_optimized_schedule
  cases hr : runAll cfg draws with
  | error e => rfl
  | ok p =>
    obtain ⟨st, k⟩ := p
    have hz : total_possible_slots cfg = 0 := by
      unfold total_possible_slots
      rw [h, mul_zero]
    show (if total_possible_slots cfg = 0 then
        (Except.error ("ZeroDivisionError: division by zero") : Except String ScheduleResult)
      else _).isOk = false
    rw [if_pos hz]
    rfl

/-- Witness for C3 at the concrete configuration with `classrooms = 0`. -/
theorem C3_zero_rooms_always_raises_witness :
    (generate_optimized_schedule { classrooms := some 0 } drawsC 1).isOk = false :=
  C3_zero_rooms_always_raises { classrooms := some 0 } drawsC 1 (by decide)

/-- Counterexample to C3 as stated: with `classrooms = 0` and the default
subject list and targets, the run raises `ValueError` at the very first room
draw instead of completing with 100 recorded conflicts. -/
theorem C3_counterexample :
    generate_optimized_schedule { classrooms := some 0 } drawsC 1 =
      .error ("ValueError: empty range for randrange() (1, classrooms+1, classrooms)") := rfl

/-- C5 (amended: completion additionally requires the three draw ranges to be
nonempty, i.e. room count, batch count and faculty count at least 1; with an
empty range the run raises instead).  For every subject the placement loop
performs at most 100 attempts, it stops immediately once the target of the
subject is reached, and exhausting the budget raises no error: under the stated
resource bounds the run always completes and returns a schedule. -/
theorem C5_attempt_budget (cfg : ConfigData) (draws : Nat → Draw)
    (h1 : 1 ≤ eff_classrooms cfg) (h2 : 1 ≤ eff_batches cfg)
    (h3 : 1 ≤ eff_faculty_count cfg) :
    (∀ (subject : String) (k sched : Nat) (st st' : RunState) (k' : Nat),
      placeSubject cfg draws subject (eff_classes_per_week cfg) 100 k sched st = .ok (st', k') →
      k' ≤ k + 100) ∧
    (∀ (subject : String) (fuel k sched : Nat) (st : RunState),
      eff_classes_per_week cfg ≤ (sched : Int) →
      placeSubject cfg draws subject (eff_classes_per_week cfg) fuel k sched st = .ok (st, k)) ∧
    (∀ n : Nat, (generate_optimized_schedule cfg draws n).isOk = true) := by
  refine ⟨?_, ?_, ?_⟩
  · intro subject k sched st st' k' h
    exact placeSubject_budget cfg draws subject (eff_classes_per_week cfg) 100 k sched st st' k' h
  · intro subject fuel k sched st h
    exact placeSubject_stop cfg draws subject (eff_classes_per_week cfg) fuel k sched st h
  · intro n
    exact generate_isOk cfg draws n h1 h2 (trunc_pool_ne_nil cfg h3)

/-- Witness for C5 at the concrete configuration `cfg1`. -/
theorem C5_attempt_budget_witness :
    (∀ (subject : String) (k sched : Nat) (st st' : RunState) (k' : Nat),
      placeSubject cfg1 drawsC subject (eff_classes_per_week cfg1) 100 k sched st = .ok (st', k') →
      k' ≤ k + 100) ∧
    (∀ (subject : String) (fuel k sched : Nat) (st : RunState),
      eff_classes_per_week cfg1 ≤ (sched : Int) →
      placeSubject cfg1 drawsC subject (eff_classes_per_week cfg1) fuel k sched st = .ok (st, k)) ∧
    (∀ n : Nat, (generate_optimized_schedule cfg1 drawsC n).isOk = true) :=
  C5_attempt_budget cfg1 drawsC (by decide) (by decide) (by decide)

/-- Counterexample to C5 as stated: with a zero batch count (and otherwise
default configuration) the run does not complete; it raises `ValueError` at
the first batch draw. -/
theorem C5_counterexample :
    generate_optimized_schedule { batches := some 0 } drawsC 1 =
      .error ("ValueError: empty range for randrange() (1, batches+1, batches)") := rfl

/-! Auxiliary facts about the metrics arithmetic. -/

theorem sum_map_zero {α : Type} (l : List α) : (l.map (fun _ => (0 : Nat))).sum = 0 := by
  induction l with
  | nil => rfl
  | cons a t ih => simp [ih]

theorem foldl_max_zero : ∀ t : List Nat, (∀ x ∈ t, x = 0) → t.foldl max 0 = 0 := by
  intro t
  induction t with
  | nil => intro _; rfl
  | cons a tl ih =>
    intro h
    have ha := h a (List.mem_cons_self a tl)
    rw [List.foldl_cons, ha]
    exact ih (fun x hx => h x (List.mem_cons_of_mem a hx))

theorem pyMaxNat_all_zero (l : List Nat) (h : ∀ x ∈ l, x = 0) : pyMaxNat l = 0 := by
  cases l with
  | nil => rfl
  | cons a t =>
    have ha := h a (List.mem_cons_self a t)
    show t.foldl max a = 0
    rw [ha]
    exact foldl_max_zero t (fun x hx => h x (List.mem_cons_of_mem a hx))

theorem foldl_min_zero : ∀ t : List Nat, t.foldl min 0 = 0 := by
  intro t
  induction t with
  | nil => rfl
  | cons a tl ih =>
    rw [List.foldl_cons, Nat.zero_min]
    exact ih

theorem pyMinNat_all_zero (l : List Nat) (h : ∀ x ∈ l, x = 0) : pyMinNat l = 0 := by
  cases l with
  | nil => rfl
  | cons a t =>
    have ha := h a (List.mem_cons_self a t)
    show t.foldl min a = 0
    rw [ha]
    exact foldl_min_zero t

theorem faculty_balance_cast (st : RunState) (h : (faculty_loads st).isEmpty = false) :
    (faculty_balance_int st : ℚ) =
      max 0 (100 - 5 * ((pyMaxNat (faculty_loads st) : ℚ) - (pyMinNat (faculty_loads st) : ℚ))) := by
  unfold faculty_balance_int
  rw [h]
  simp only [Bool.false_eq_true, if_false]
  push_cast
  congr 1
  ring

theorem pyRound1_zero : pyRound1 0 = 0 := by
  unfold pyRound1 roundHalfEven
  norm_num

/-- C4 (confirmed; the value placed in the Metrics record is this formula
rounded to one decimal at the output boundary, see C10).  For every run, the
optimization score is 0.3 times the classroom utilization plus 0.3 times the
faculty load balance plus 0.4 times max(0, 100 - 5 * conflict count), where
the load balance is max(0, 100 - 5 * (max - min of per-faculty weekly
totals)), and equals 100 when no faculty has any load. -/
theorem C4_optimization_score (cfg : ConfigData) (draws : Nat → Draw) (n : Nat)
    (st : RunState) (k : Nat) (res : ScheduleResult)
    (hrun : runAll cfg draws = .ok (st, k))
    (hgen : generate_optimized_schedule cfg draws n = .ok res) :
    res.metrics.optimization_score =
      pyRound1 (classroom_utilization_raw cfg st * 0.3 + (faculty_balance_int st : ℚ) * 0.3 +
        ((max 0 (100 - (res.metrics.conflict_count : Int) * 5) : Int) : ℚ) * 0.4) ∧
    res.metrics.conflict_count = st.conflicts.length ∧
    ((faculty_loads st).isEmpty = true → (faculty_balance_int st : ℚ) = 100) ∧
    ((faculty_loads st).isEmpty = false → (faculty_balance_int st : ℚ) =
      max 0 (100 - 5 * ((pyMaxNat (faculty_loads st) : ℚ) - (pyMinNat (faculty_loads st) : ℚ)))) ∧
    ((∀ x ∈ faculty_loads st, x = 0) → (faculty_balance_int st : ℚ) = 100) := by
  obtain ⟨_, hmet, _⟩ := generate_ok_spec cfg draws n st k res hrun hgen
  rw [hmet]
  refine ⟨rfl, rfl, ?_, ?_, ?_⟩
  · intro h
    simp [faculty_balance_int, h]
  · intro h
    exact faculty_balance_cast st h
  · intro h
    cases he : (faculty_loads st).isEmpty with
    | true => simp [faculty_balance_int, he]
    | false =>
      rw [faculty_balance_cast st he, pyMaxNat_all_zero _ h, pyMinNat_all_zero _ h]
      norm_num

/-- Witness for C4 at the concrete configuration `cfg1`. -/
theorem C4_optimization_score_witness :
    res1.metrics.optimization_score =
      pyRound1 (classroom_utilization_raw cfg1 (initState cfg1) * 0.3 +
        (faculty_balance_int (initState cfg1) : ℚ) * 0.3 +
        ((max 0 (100 - (res1.metrics.conflict_count : Int) * 5) : Int) : ℚ) * 0.4) ∧
    res1.metrics.conflict_count = (initState cfg1).conflicts.length ∧
    ((faculty_loads (initState cfg1)).isEmpty = true →
      (faculty_balance_int (initState cfg1) : ℚ) = 100) ∧
    ((faculty_loads (initState cfg1)).isEmpty = false →
      (faculty_balance_int (initState cfg1) : ℚ) =
        max 0 (100 - 5 * ((pyMaxNat (faculty_loads (initState cfg1)) : ℚ) -
          (pyMinNat (faculty_loads (initState cfg1)) : ℚ)))) ∧
    ((∀ x ∈ faculty_loads (initState cfg1), x = 0) →
      (faculty_balance_int (initState cfg1) : ℚ) = 100) :=
  C4_optimization_score cfg1 drawsC 1 (initState cfg1) 0 res1 rfl rfl

/-- C10 (confirmed).  In the returned Metrics record, classroom utilization,
faculty load balance, optimization score and faculty utilization are each the
one-decimal rounding of the corresponding unrounded quantity, applied only at
the output boundary; conflict count and total classes scheduled are exact
integer counters; and the unrounded score is computed from the unrounded
utilization and balance. -/
theorem C10_output_rounding (cfg : ConfigData) (draws : Nat → Draw) (n : Nat)
    (st : RunState) (k : Nat) (res : ScheduleResult)
    (hrun : runAll cfg draws = .ok (st, k))
    (hgen : generate_optimized_schedule cfg draws n = .ok res) :
    res.metrics.classroom_utilization = pyRound1 (classroom_utilization_raw cfg st) ∧
    res.metrics.faculty_load_balance = pyRound1 ((faculty_balance_int st : ℚ)) ∧
    res.metrics.optimization_score = pyRound1 (optimization_score_raw cfg st) ∧
    res.metrics.faculty_utilization = pyRound1 (faculty_utilization_raw st) ∧
    res.metrics.conflict_count = st.conflicts.length ∧
    res.metrics.total_classes_scheduled = st.total_classes_scheduled ∧
    optimization_score_raw cfg st = classroom_utilization_raw cfg st * 0.3 +
      (faculty_balance_int st : ℚ) * 0.3 + ((conflict_term st : Int) : ℚ) * 0.4 := by
  obtain ⟨_, hmet, _⟩ := generate_ok_spec cfg draws n st k res hrun hgen
  rw [hmet]
  exact ⟨rfl, rfl, rfl, rfl, rfl, rfl, rfl⟩

theorem pool_sum_eq (cfg : ConfigData) (g : String → String → Nat) (st : RunState)
    (hst : st.faculty_load = shapedFL cfg g) :
    (trunc_pool cfg).map (fun f => ((days cfg).map (fun d => flGet st.faculty_load f d)).sum) =
      faculty_loads st := by
  rw [faculty_loads_shapedFL cfg g st hst]
  apply List.map_congr_left
  intro f hf
  congr 1
  apply List.map_congr_left
  intro dd hd
  rw [hst]
  exact flGet_shapedFL_mem cfg g hf hd

/-- C6 (confirmed).  The faculty utilization reported in Metrics is the
arithmetic mean of the per-faculty weekly session totals taken over the full
truncated faculty name pool, including faculty members with zero load. -/
theorem C6_faculty_utilization (cfg : ConfigData) (draws : Nat → Draw) (n : Nat)
    (st : RunState) (k : Nat) (res : ScheduleResult)
    (hrun : runAll cfg draws = .ok (st, k))
    (hgen : generate_optimized_schedule cfg draws n = .ok res)
    (hpool : trunc_pool cfg ≠ []) :
    res.metrics.faculty_utilization =
      pyRound1 ((((trunc_pool cfg).map
          (fun f => ((days cfg).map (fun d => flGet st.faculty_load f d)).sum)).sum : ℚ) /
        ((trunc_pool cfg).length : ℚ)) ∧
    (faculty_loads st).length = (trunc_pool cfg).length := by
  obtain ⟨_, hmet, _⟩ := generate_ok_spec cfg draws n st k res hrun hgen
  have hinv := runAll_inv cfg draws st k hrun
  obtain ⟨g, hg⟩ := hinv.fl_shape
  have hsum := pool_sum_eq cfg g st hg
  have hlen : (faculty_loads st).length = (trunc_pool cfg).length := by
    rw [faculty_loads_shapedFL cfg g st hg, List.length_map]
  refine ⟨?_, hlen⟩
  rw [hmet]
  show pyRound1 (faculty_utilization_raw st) = _
  unfold faculty_utilization_raw
  have hne : ¬((faculty_loads st).isEmpty = true) := by
    simp only [List.isEmpty_eq_true]
    intro hnil
    rw [hnil] at hlen
    have := List.length_pos.mpr hpool
    simp at hlen
    omega
  rw [if_neg hne]
  rw [← hsum, List.length_map]

/-- Witness for C6 at the concrete configuration `cfg1`. -/
theorem C6_faculty_utilization_witness :
    res1.metrics.faculty_utilization =
      pyRound1 ((((trunc_pool cfg1).map
          (fun f => ((days cfg1).map (fun d => flGet (initState cfg1).faculty_load f d)).sum)).sum : ℚ) /
        ((trunc_pool cfg1).length : ℚ)) ∧
    (faculty_loads (initState cfg1)).length = (trunc_pool cfg1).length :=
  C6_faculty_utilization cfg1 drawsC 1 (initState cfg1) 0 res1 rfl rfl (by decide)

/-- C9 (confirmed).  For every run, the number of session entries summed over
all (day, slot) cells of the returned grid equals the reported total of
scheduled classes: no committed placement is ever overwritten, because within
one cell the composite class key determines the batch, and batch exclusivity
keeps keys distinct. -/
theorem C9_grid_total (cfg : ConfigData) (draws : Nat → Draw) (n : Nat)
    (st : RunState) (k : Nat) (res : ScheduleResult)
    (hrun : runAll cfg draws = .ok (st, k))
    (hgen : generate_optimized_schedule cfg draws n = .ok res) :
    ((days cfg).map (fun day => (time_slots.map (fun slot =>
        (res.schedule.filter (fun e => decide (e.day = day ∧ e.slot = slot))).length)).sum)).sum
      = res.metrics.total_classes_scheduled ∧
    res.schedule.length = res.metrics.total_classes_scheduled ∧
    (∀ e₁ ∈ res.schedule, ∀ e₂ ∈ res.schedule, e₁.day = e₂.day → e₁.slot = e₂.slot →
      e₁.classId = e₂.classId → e₁ = e₂) := by
  obtain ⟨hsch, hmet, _⟩ := generate_ok_spec cfg draws n st k res hrun hgen
  have hinv := runAll_inv cfg draws st k hrun
  have htot : res.metrics.total_classes_scheduled = st.total_classes_scheduled := by
    rw [hmet]
    rfl
  have hcell : ∀ day : String, (time_slots.map (fun slot =>
      (st.schedule.filter (fun e => decide (e.day = day ∧ e.slot = slot))).length)).sum =
      (st.schedule.filter (fun e => decide (e.day = day))).length := by
    intro day
    have hconj : ∀ slot : String,
        st.schedule.filter (fun e => decide (e.day = day ∧ e.slot = slot)) =
        (st.schedule.filter (fun e => decide (e.day = day))).filter
          (fun e => decide (e.slot = slot)) := by
      intro slot
      rw [List.filter_filter]
      apply List.filter_congr
      intro e _
      simp only [Bool.decide_and]
      exact Bool.and_comm _ _
    have hpart := length_eq_sum_filter (fun e : GridEntry => e.slot) time_slots
      time_slots_nodup (st.schedule.filter (fun e => decide (e.day = day)))
      (fun a ha => hinv.slot_mem a (List.mem_filter.mp ha).1)
    rw [← hpart]
    exact congrArg List.sum (List.map_congr_left (fun slot _ => by rw [hconj slot]))
  have houter := length_eq_sum_filter (fun e : GridEntry => e.day) (days cfg)
    (days_nodup cfg) st.schedule (fun a ha => hinv.day_mem a ha)
  refine ⟨?_, ?_, ?_⟩
  · rw [hsch, htot, ← hinv.count_eq, ← houter]
    exact congrArg List.sum (List.map_congr_left (fun day _ => hcell day))
  · rw [hsch, htot]
    exact hinv.count_eq
  · rw [hsch]
    intro e₁ h₁ e₂ h₂ hd hs hid
    by_contra hne
    have hsymm : Symmetric (fun a b : GridEntry => a.day = b.day → a.slot = b.slot →
        a.session.room ≠ b.session.room ∧ a.session.batch ≠ b.session.batch) := by
      intro a b hab hd' hs'
      obtain ⟨hr, hb⟩ := hab hd'.symm hs'.symm
      exact ⟨fun hc => hr hc.symm, fun hc => hb hc.symm⟩
    have hR := List.Pairwise.forall hsymm hinv.distinct h₁ h₂ hne hd hs
    obtain ⟨⟨n₁, hb₁⟩, ⟨m₁, hr₁⟩, hid₁⟩ := hinv.canon e₁ h₁
    obtain ⟨⟨n₂, hb₂⟩, ⟨m₂, hr₂⟩, hid₂⟩ := hinv.canon e₂ h₂
    have hbeq : e₁.session.batch = e₂.session.batch :=
      classIdOf_inj_batch (hb₁ ▸ batchName_ne_underscore n₁) (hr₁ ▸ roomName_ne_underscore m₁)
        (hb₂ ▸ batchName_ne_underscore n₂) (hr₂ ▸ roomName_ne_underscore m₂)
        (by rw [← hid₁, ← hid₂]; exact hid)
    exact hR.2 hbeq

/-- Witness for C9 at the concrete configuration `cfg1`. -/
theorem C9_grid_total_witness :
    ((days cfg1).map (fun day => (time_slots.map (fun slot =>
        (res1.schedule.filter (fun e => decide (e.day = day ∧ e.slot = slot))).length)).sum)).sum
      = res1.metrics.total_classes_scheduled ∧
    res1.schedule.length = res1.metrics.total_classes_scheduled ∧
    (∀ e₁ ∈ res1.schedule, ∀ e₂ ∈ res1.schedule, e₁.day = e₂.day → e₁.slot = e₂.slot →
      e₁.classId = e₂.classId → e₁ = e₂) :=
  C9_grid_total cfg1 drawsC 1 (initState cfg1) 0 res1 rfl rfl

/-- Witness for C10 at the concrete configuration `cfg1`. -/
theorem C10_output_rounding_witness :
    res1.metrics.classroom_utilization = pyRound1 (classroom_utilization_raw cfg1 (initState cfg1)) ∧
    res1.metrics.faculty_load_balance = pyRound1 ((faculty_balance_int (initState cfg1) : ℚ)) ∧
    res1.metrics.optimization_score = pyRound1 (optimization_score_raw cfg1 (initState cfg1)) ∧
    res1.metrics.faculty_utilization = pyRound1 (faculty_utilization_raw (initState cfg1)) ∧
    res1.metrics.conflict_count = (initState cfg1).conflicts.length ∧
    res1.metrics.total_classes_scheduled = (initState cfg1).total_classes_scheduled ∧
    optimization_score_raw cfg1 (initState cfg1) =
      classroom_utilization_raw cfg1 (initState cfg1) * 0.3 +
      (faculty_balance_int (initState cfg1) : ℚ) * 0.3 +
      ((conflict_term (initState cfg1) : Int) : ℚ) * 0.4 :=
  C10_output_rounding cfg1 drawsC 1 (initState cfg1) 0 res1 rfl rfl

theorem classroom_utilization_raw_init (cfg : ConfigData) :
    classroom_utilization_raw cfg (initState cfg) = 0 := by
  unfold classroom_utilization_raw
  have h1 : ((days cfg).map (fun day => (time_slots.map (fun slot =>
      ((initState cfg).room_usage.filter
        (fun t => decide (t.1 = day ∧ t.2.1 = slot))).length)).sum)).sum = 0 := by
    rw [← sum_map_zero (days cfg)]
    apply congrArg List.sum
    apply List.map_congr_left
    intro day _
    rw [← sum_map_zero time_slots]
    apply congrArg List.sum
    apply List.map_congr_left
    intro slot _
    rfl
  rw [h1]
  norm_num

theorem runAll_target_zero (cfg : ConfigData) (draws : Nat → Draw) (s : String)
    (hsub : eff_subjects cfg = [s]) (htgt : eff_classes_per_week cfg = 0) :
    runAll cfg draws = .ok (initState cfg, 0) := by
  unfold runAll
  rw [hsub]
  have hps := placeSubject_stop cfg draws s (eff_classes_per_week cfg) 100 0 0 (initState cfg)
    (by rw [htgt]; norm_num)
  show (match placeSubject cfg draws s (eff_classes_per_week cfg) 100 0 0 (initState cfg) with
      | Except.error e => (Except.error e : Except String (RunState × Nat))
      | Except.ok (st', k') => runSubjects cfg draws [] k' st') = .ok (initState cfg, 0)
  rw [hps]
  rfl

/-- C8 (corrected: excludes a zero room count, for which the run instead
raises `ZeroDivisionError` in the utilization division).  A configuration
whose only subject has a target of 0 sessions per week and whose room count is
nonzero produces an empty grid, classroom utilization 0, conflict count 0, and
an optimization score built only from the load-balance term times 0.3 plus 100
times 0.4. -/
theorem C8_target_zero (cfg : ConfigData) (draws : Nat → Draw) (n : Nat) (s : String)
    (hsub : eff_subjects cfg = [s]) (htgt : eff_classes_per_week cfg = 0)
    (hrooms : eff_classrooms cfg ≠ 0) :
    generate_optimized_schedule cfg draws n = .ok
      { id := n, name := "Timetable Option " ++ toString n, schedule := [],
        metrics := computeMetrics cfg (initState cfg), conflicts := [] } ∧
    (computeMetrics cfg (initState cfg)).classroom_utilization = 0 ∧
    (computeMetrics cfg (initState cfg)).conflict_count = 0 ∧
    (computeMetrics cfg (initState cfg)).total_classes_scheduled = 0 ∧
    (computeMetrics cfg (initState cfg)).optimization_score =
      pyRound1 ((faculty_balance_int (initState cfg) : ℚ) * 0.3 + 100 * 0.4) := by
  have hrun := runAll_target_zero cfg draws s hsub htgt
  refine ⟨?_, ?_, rfl, rfl, ?_⟩
  · unfold generate_optimized_schedule
    rw [hrun]
    show (if total_possible_slots cfg = 0 then
        (Except.error ("ZeroDivisionError: division by zero") : Except String ScheduleResult)
      else _) = _
    rw [if_neg (total_possible_slots_ne_zero cfg hrooms)]
    rfl
  · show pyRound1 (classroom_utilization_raw cfg (initState cfg)) = 0
    rw [classroom_utilization_raw_init, pyRound1_zero]
  · show pyRound1 (optimization_score_raw cfg (initState cfg)) = _
    apply congrArg pyRound1
    unfold optimization_score_raw
    rw [classroom_utilization_raw_init]
    have hct : conflict_term (initState cfg) = 100 := rfl
    rw [hct]
    push_cast
    ring

/-- Witness for C8 at the concrete configuration `cfg1`. -/
theorem C8_target_zero_witness :
    generate_optimized_schedule cfg1 drawsC 1 = .ok
      { id := 1, name := "Timetable Option " ++ toString 1, schedule := [],
        metrics := computeMetrics cfg1 (initState cfg1), conflicts := [] } ∧
    (computeMetrics cfg1 (initState cfg1)).classroom_utilization = 0 ∧
    (computeMetrics cfg1 (initState cfg1)).conflict_count = 0 ∧
    (computeMetrics cfg1 (initState cfg1)).total_classes_scheduled = 0 ∧
    (computeMetrics cfg1 (initState cfg1)).optimization_score =
      pyRound1 ((faculty_balance_int (initState cfg1) : ℚ) * 0.3 + 100 * 0.4) :=
  C8_target_zero cfg1 drawsC 1 ("Math") rfl rfl (by decide)

/-- Counterexample to C8 as stated: the same target-0 configuration with a
zero room count does not produce an empty grid with utilization 0; the
utilization division raises `ZeroDivisionError`. -/
theorem C8_counterexample :
    generate_optimized_schedule
      { subject_list := some ["Math"], classes_per_week := some 0, classrooms := some 0 }
      drawsC 1 = .error ("ZeroDivisionError: division by zero") := rfl

/-- C7 (confirmed).  The suggestion generator returns exactly the
low-utilization advisory on a Metrics record with utilization 50, balance 90,
conflicts 2 and score 90; exactly the balance, conflicts and score advisories,
in that fixed order, on utilization 90, balance 60, conflicts 10, score 70; in
general each of its four threshold conditions is evaluated independently, a
given advisory appearing exactly when its own condition holds. -/
theorem C7_suggestions (t₁ t₂ : Nat) (q₁ q₂ : ℚ) :
    suggest_improvements
      { classroom_utilization := 50, faculty_load_balance := 90, conflict_count := 2,
        optimization_score := 90, total_classes_scheduled := t₁, faculty_utilization := q₁ } =
      ["Consider reducing the number of classrooms or increasing class frequency"] ∧
    suggest_improvements
      { classroom_utilization := 90, faculty_load_balance := 60, conflict_count := 10,
        optimization_score := 70, total_classes_scheduled := t₂, faculty_utilization := q₂ } =
      ["Redistribute faculty workload for better balance",
       "Review and resolve scheduling conflicts manually",
       "Consider adjusting time slots or adding more resources"] ∧
    (∀ m : Metrics,
      (("Consider reducing the number of classrooms or increasing class frequency" ∈
          suggest_improvements m) ↔ m.classroom_utilization < 70) ∧
      (("Redistribute faculty workload for better balance" ∈ suggest_improvements m) ↔
          m.faculty_load_balance < 80) ∧
      (("Review and resolve scheduling conflicts manually" ∈ suggest_improvements m) ↔
          m.conflict_count > 5) ∧
      (("Consider adjusting time slots or adding more resources" ∈ suggest_improvements m) ↔
          m.optimization_score < 85)) := by
  refine ⟨?_, ?_, ?_⟩
  · norm_num [suggest_improvements]
  · norm_num [suggest_improvements]
  · intro m
    by_cases h1 : m.classroom_utilization < 70 <;>
      by_cases h2 : m.faculty_load_balance < 80 <;>
        by_cases h3 : m.conflict_count > 5 <;>
          by_cases h4 : m.optimization_score < 85 <;>
            simp [suggest_improvements, h1, h2, h3, h4]

end App
